import Mathlib

/-!
Shallow embedding of `src/plot_functions.py`, a module of matplotlib plotting
helpers.  Each Python function issues a straight-line sequence of calls into
the plotting library (figure creation, curve drawing, axis labelling, saving,
showing); we model one call as one `Event` and each function as the list of
events it issues, in source order, with the arguments the source passes.
Numeric scalars (font sizes, marker sizes given as numbers, data values) are
modelled as `Rat`; values whose Python type varies by call site are modelled
by `PyVal`.  Optional parameters that Python defaults to `None` and tests
with `if x:` are modelled as `Option` (a `None`/empty argument issues no
calls, exactly as the source's falsy test skips the block).
-/

namespace PlotFunctions

/-- Dynamically typed Python value appearing in descriptor tuples: a number,
a string, or a numeric array. -/
inductive PyVal where
  | num (q : Rat)
  | str (s : String)
  | arr (xs : List Rat)
deriving DecidableEq, Repr

/-- Which axes object a library call is made on: the implicit current axes of
`plt.*` calls, or the explicit `ax1` / `ax2` objects of the twin-axis plot. -/
inductive Ax where
  | gca
  | ax1
  | ax2
deriving DecidableEq, Repr

/-- Series descriptor as consumed by `plot_with_one_axis`,
`plot_with_one_axis_with_vertical_lines`,
`plot_with_two_axes_with_N_curves_with_VERTICAL_lines` and
`plot_dynamic_subplots`: `[data_x, data_y, label, colorr, line_style,
marker_type]` (source line 52). -/
structure SeriesDesc where
  data_x : List Rat
  data_y : List Rat
  label : String
  colorr : String
  line_style : String
  marker_type : String
deriving DecidableEq, Repr

/-- Five-field series descriptor of `plot_with_one_axis_with_points`:
`[data_x, data_y, label, colorr, line_style]` (source line 215); the marker
comes from the function's `marker_type` parameter. -/
structure SeriesDesc5 where
  data_x : List Rat
  data_y : List Rat
  label : String
  colorr : String
  line_style : String
deriving DecidableEq, Repr

/-- Point descriptor of `plot_with_one_axis_with_points`:
`[x_val, y_val, labell, markerr, markersizee, colorr]` (source line 219). -/
structure PointDesc where
  x_val : Rat
  y_val : Rat
  labell : String
  markerr : String
  markersizee : Rat
  colorr : String
deriving DecidableEq, Repr

/-- Vertical-line descriptor: `[x_val, color, linestyle]`
(source lines 144 and 308). -/
structure VLineDesc where
  x_val : Rat
  color : String
  linestyle : String
deriving DecidableEq, Repr

/-- Error-bar entry of `plot_with_one_axis_and_error_bars_BYLIST`:
`data_x_1, data_y_1, data_y_1_error, label1, col1 = d` (source line 171). -/
structure ErrBarDesc where
  data_x_1 : List Rat
  data_y_1 : List Rat
  data_y_1_error : List Rat
  label1 : String
  col1 : String
deriving DecidableEq, Repr

/-- Data entry of `one_axis__N_Y_with_error_bars__with_N_fits`, read
positionally as `d[0] .. d[5]` (source line 339): x, y, y-error, label,
color, line-style; the marker comes from the `marker_type` parameter. -/
structure ErrFitDataDesc where
  d0 : List Rat
  d1 : List Rat
  d2 : List Rat
  d3 : String
  d4 : String
  d5 : String
deriving DecidableEq, Repr

/-- Fit entry of `one_axis__N_Y_with_error_bars__with_N_fits`, read as
`f[0] .. f[3]` (source line 343): x, y, label, color. -/
structure FitDesc where
  f0 : List Rat
  f1 : List Rat
  f2 : String
  f3 : String
deriving DecidableEq, Repr

/-- One call into the plotting library, with the arguments the source passes.
Constant keyword arguments that never vary (`which='major'`,
`scilimits=(0,0)`, `format="pdf"`) are kept in the constructor that issues
them rather than as fields. -/
inductive Event where
  | figure (figsize : Option (Rat × Rat))
  | subplotsCall
  | plotCall (ax : Ax) (x y : List Rat) (label marker linestyle color : String)
      (markersize : PyVal) (linewidth : Option Rat)
  | plotPoint (x y : Rat) (label marker : String) (markersize : Rat) (color : String)
  | plotFit (x y : List Rat) (label color : String)
  | errorbar (x y yerr : List Rat) (fmt label : String) (capsize : Rat)
      (color : String) (markersize : PyVal) (linestyle : String) (alpha : Rat)
  | xlabel (ax : Ax) (s : String) (fontsize : Option Rat)
  | ylabel (ax : Ax) (s : String) (color : Option String) (fontsize : Option Rat)
  | title (s : String) (fontsize : Option Rat)
  | legend (loc : String) (fontsize : Rat)
  | legendLines (labels : List String) (loc : String) (fontsize : Rat)
  | xticks (fontsize : Rat)
  | yticks (fontsize : Rat)
  | xaxisMaxNLocator (nbins : Nat)
  | ylim (lo hi : Rat)
  | ticklabelFormat (style : String)
  | offsetTextFontsize (sz : Rat)
  | tickParams (ax : Ax) (axis : String) (labelsize : Rat) (lengthZero : Bool)
  | setXticklabelsEmpty (ax : Ax)
  | twinx
  | tightLayout
  | axvline (ax : Ax) (x : Rat) (color linestyle : String)
  | subplot (rows cols idx : Nat)
  | savefig (fname : String)
  | showFig
deriving DecidableEq, Repr

/-- Module-level mutable state of `plot_functions.py`.  The module defines no
mutable globals and no statement of any function assigns to a global or
stores an argument outside the call, so the only thing the state can record
is which caller objects the module has retained: none, ever. -/
structure ModuleState where
  storedInputs : List PyVal
deriving DecidableEq, Repr

/-- Effect of one library call on the module's own state: every call draws
into the library's figure, none touches a module global or stores a caller
object, so each event leaves the module state as it found it. -/
def stepEvent (st : ModuleState) (e : Event) : ModuleState :=
  match e with
  | _ => st

/-- Color palette `c_scheme` (source line 15).  The Python function takes no
arguments and reads no state; we pass the module state explicitly to state
call-independence. -/
def c_scheme (_st : ModuleState) : List String :=
  ["#ffb400", "#d2980d", "#a57c1b", "#786028", "#363445", "#48446e",
   "#5e569b", "#776bcd", "#9080ff"]

/-- Color palette `c_scheme_02` (source line 18). -/
def c_scheme_02 (_st : ModuleState) : List String :=
  ["#450d54", "#482878", "#3e4a89", "#30688e", "#25828e", "#1f9e89",
   "#35b779", "#6dcd59", "#b4de2c", "#fde725"]

/-- Color palette `c_scheme_03` (source line 23). -/
def c_scheme_03 (_st : ModuleState) : List String :=
  ["#e6194b", "#3cb44b", "#ffe119", "#4363d8", "#f58231", "#911eb4",
   "#46f0f0", "#f032e6", "#bcf60c", "#fabebe", "#008080", "#e6beff",
   "#9a6324", "#fffac8", "#800000", "#aaffc3", "#808000", "#ffd8b1",
   "#000075", "#808080", "#ffffff", "#000000"]

/-- True when a character is a hexadecimal digit. -/
def isHexDigit (c : Char) : Bool :=
  c.isDigit || (("abcdefABCDEF".toList).contains c)

/-- True when a string is a hex color: a `#` followed by six hex digits. -/
def isHexColor (s : String) : Bool :=
  match s.toList with
  | '#' :: rest => rest.length = 6 && rest.all isHexDigit
  | _ => false

/-- Trace of `plot_with_one_axis` (source lines 26-84): new figure, one
`plt.plot` per entry of `list_of_data` in order, axis labels, title, legend,
tick font sizes, `MaxNLocator`, optional `ylim`, scientific-notation format
and offset size, optional `savefig` when the filename is not the `"nosvg"`
sentinel, then `show`. -/
def plot_with_one_axis (list_of_data : List SeriesDesc)
    (name_x name_y plot_title filename_to_save marker_size : String)
    (font_size offset_text_size : Rat) (legend_local : String)
    (legend_size : Rat) (x_ticks_limit : Nat) (x_ticks_numstyle : String)
    (line_width : Rat) (y_lim : Option (Rat × Rat)) : List Event :=
  [Event.figure none]
  ++ list_of_data.map (fun l =>
      Event.plotCall Ax.gca l.data_x l.data_y l.label l.marker_type
        l.line_style l.colorr (PyVal.str marker_size) (some line_width))
  ++ [Event.xlabel Ax.gca name_x (some font_size),
      Event.ylabel Ax.gca name_y none (some font_size),
      Event.title plot_title (some font_size),
      Event.legend legend_local legend_size,
      Event.xticks font_size,
      Event.yticks font_size,
      Event.xaxisMaxNLocator x_ticks_limit]
  ++ (match y_lim with
      | some l => [Event.ylim l.1 l.2]
      | none => [])
  ++ [Event.ticklabelFormat x_ticks_numstyle,
      Event.offsetTextFontsize offset_text_size]
  ++ (if filename_to_save = "nosvg" then []
      else [Event.savefig (filename_to_save ++ ".pdf")])
  ++ [Event.showFig]

/-- Trace of `plot_with_one_axis_with_vertical_lines` (source lines 87-147).
Identical shape to `plot_with_one_axis` (hard-coded `'sci'` format, no
`linewidth` argument) except that `ylim` comes after the offset-size call,
and — as in the source — the optional `savefig` is issued BEFORE the
`axvline` calls for the `vlines` parameter, which come last before `show`. -/
def plot_with_one_axis_with_vertical_lines (list_of_data : List SeriesDesc)
    (name_x name_y plot_title filename_to_save marker_size : String)
    (font_size offset_text_size : Rat) (legend_local : String)
    (legend_size : Rat) (x_ticks_limit : Nat)
    (vlines : Option (List VLineDesc)) (y_lim : Option (Rat × Rat)) :
    List Event :=
  [Event.figure none]
  ++ list_of_data.map (fun l =>
      Event.plotCall Ax.gca l.data_x l.data_y l.label l.marker_type
        l.line_style l.colorr (PyVal.str marker_size) none)
  ++ [Event.xlabel Ax.gca name_x (some font_size),
      Event.ylabel Ax.gca name_y none (some font_size),
      Event.title plot_title (some font_size),
      Event.legend legend_local legend_size,
      Event.xticks font_size,
      Event.yticks font_size,
      Event.xaxisMaxNLocator x_ticks_limit,
      Event.ticklabelFormat "sci",
      Event.offsetTextFontsize offset_text_size]
  ++ (match y_lim with
      | some l => [Event.ylim l.1 l.2]
      | none => [])
  ++ (if filename_to_save = "nosvg" then []
      else [Event.savefig (filename_to_save ++ ".pdf")])
  ++ (vlines.getD []).map (fun v =>
      Event.axvline Ax.gca v.x_val v.color v.linestyle)
  ++ [Event.showFig]

/-- Trace of `plot_with_one_axis_and_error_bars_BYLIST` (source lines
149-191): new figure, one `plt.errorbar` per entry of `ALLDATA` (with
`fmt=marker_type`, `linestyle="-"` hard-coded, `alpha=transparency`), bare
axis labels and title, optional `savefig` for a non-`"nosvg"` filename, then
`show`.  The `line_style` parameter appears in the signature but is never
used in the body. -/
def plot_with_one_axis_and_error_bars_BYLIST (ALLDATA : List ErrBarDesc)
    (name_x name_y plot_title filename_to_save : String)
    (line_style marker_type marker_size : String)
    (capsize_errorbars transparency : Rat) : List Event :=
  [Event.figure none]
  ++ ALLDATA.map (fun d =>
      Event.errorbar d.data_x_1 d.data_y_1 d.data_y_1_error marker_type
        d.label1 capsize_errorbars d.col1 (PyVal.str marker_size) "-"
        transparency)
  ++ [Event.xlabel Ax.gca name_x none,
      Event.ylabel Ax.gca name_y none none,
      Event.title plot_title none]
  ++ (if filename_to_save = "nosvg" then []
      else [Event.savefig (filename_to_save ++ ".pdf")])
  ++ [Event.showFig]

/-- Trace of `plot_with_one_axis_with_points` (source lines 194-240): new
figure, one `plt.plot` per five-field data entry (marker taken from the
`marker_type` parameter), then one `plt.plot` per point descriptor, bare
labels and title, optional `savefig` for a non-`"nopdf"` filename, `show`. -/
def plot_with_one_axis_with_points (list_of_data : List SeriesDesc5)
    (list_of_points : List PointDesc)
    (name_x name_y plot_title filename_to_save marker_type marker_size :
      String) : List Event :=
  [Event.figure none]
  ++ list_of_data.map (fun l =>
      Event.plotCall Ax.gca l.data_x l.data_y l.label marker_type
        l.line_style l.colorr (PyVal.str marker_size) none)
  ++ list_of_points.map (fun p =>
      Event.plotPoint p.x_val p.y_val p.labell p.markerr p.markersizee
        p.colorr)
  ++ [Event.xlabel Ax.gca name_x none,
      Event.ylabel Ax.gca name_y none none,
      Event.title plot_title none]
  ++ (if filename_to_save = "nopdf" then []
      else [Event.savefig (filename_to_save ++ ".pdf")])
  ++ [Event.showFig]

/-- Trace of `plot_with_two_axes_with_N_curves_with_VERTICAL_lines` (source
lines 242-316): `plt.subplots`, x-axis labelling on `ax1` (two variants by
`x_ticks`), first-axis curves from `data_y_one` (the source binds the fifth
tuple field to `linestyle` and the sixth to `marker`), `twinx`, second-axis
curves from `data_y_two`, `tight_layout`, title, a merged legend whose
labels are the plotted lines' labels in plotting order, `axvline` on `ax1`
per `vlines` entry, optional `savefig` for a non-`"nopdf"` filename,
`show`. -/
def plot_with_two_axes_with_N_curves_with_VERTICAL_lines
    (data_y_one data_y_two : List SeriesDesc)
    (name_x name_y1 name_y2 col_ax1 col_ax2 plot_title filename_to_save
      marker_size : String)
    (font_size legend_size : Rat) (legend_local : String)
    (vlines : Option (List VLineDesc)) (x_ticks : Bool) : List Event :=
  [Event.subplotsCall]
  ++ (if x_ticks then
        [Event.xlabel Ax.ax1 name_x (some font_size),
         Event.tickParams Ax.ax1 "x" font_size false]
      else
        [Event.setXticklabelsEmpty Ax.ax1,
         Event.tickParams Ax.ax1 "x" font_size true,
         Event.xlabel Ax.ax1 name_x (some font_size)])
  ++ [Event.ylabel Ax.ax1 name_y1 (some col_ax1) (some font_size)]
  ++ data_y_one.map (fun d =>
      Event.plotCall Ax.ax1 d.data_x d.data_y d.label d.marker_type
        d.line_style d.colorr (PyVal.str marker_size) none)
  ++ [Event.tickParams Ax.ax1 "y" font_size false,
      Event.twinx,
      Event.ylabel Ax.ax2 name_y2 (some col_ax2) (some font_size)]
  ++ data_y_two.map (fun d =>
      Event.plotCall Ax.ax2 d.data_x d.data_y d.label d.marker_type
        d.line_style d.colorr (PyVal.str marker_size) none)
  ++ [Event.tickParams Ax.ax2 "y" font_size false,
      Event.tightLayout,
      Event.title plot_title (some font_size),
      Event.legendLines
        ((data_y_one.map (fun d => d.label))
          ++ data_y_two.map (fun d => d.label))
        legend_local legend_size]
  ++ (vlines.getD []).map (fun v =>
      Event.axvline Ax.ax1 v.x_val v.color v.linestyle)
  ++ (if filename_to_save = "nopdf" then []
      else [Event.savefig (filename_to_save ++ ".pdf")])
  ++ [Event.showFig]

/-- Trace of `one_axis__N_Y_with_error_bars__with_N_fits` (source lines
318-372): new figure, one `plt.errorbar` per data entry (fields `d[0]..d[5]`,
`fmt=marker_type`, `alpha=alpha_data`), one plain `plt.plot` per fit entry
(fields `f[0]..f[3]`), labels, title, legend, tick sizes, `MaxNLocator`,
scientific-notation format, offset size, optional `savefig` for a
non-`"nopdf"` filename, `show`. -/
def one_axis__N_Y_with_error_bars__with_N_fits
    (list_of_data : List ErrFitDataDesc) (list_of_fit : List FitDesc)
    (name_x name_y plot_title filename_to_save marker_type marker_size :
      String)
    (capsize_errorbars alpha_data font_size offset_text_size legend_size :
      Rat)
    (legend_local : String) (x_ticks_limit : Nat) : List Event :=
  [Event.figure none]
  ++ list_of_data.map (fun d =>
      Event.errorbar d.d0 d.d1 d.d2 marker_type d.d3 capsize_errorbars d.d4
        (PyVal.str marker_size) d.d5 alpha_data)
  ++ list_of_fit.map (fun f => Event.plotFit f.f0 f.f1 f.f2 f.f3)
  ++ [Event.xlabel Ax.gca name_x (some font_size),
      Event.ylabel Ax.gca name_y none (some font_size),
      Event.title plot_title (some font_size),
      Event.legend legend_local legend_size,
      Event.xticks font_size,
      Event.yticks font_size,
      Event.xaxisMaxNLocator x_ticks_limit,
      Event.ticklabelFormat "sci",
      Event.offsetTextFontsize offset_text_size]
  ++ (if filename_to_save = "nopdf" then []
      else [Event.savefig (filename_to_save ++ ".pdf")])
  ++ [Event.showFig]

/-- Body of the `for i, data in enumerate(list_of_data, start=1)` loop of
`plot_dynamic_subplots` (source lines 379-403): for each entry, select
subplot `(rows, 1, i)`, draw the entry's curve, then label, legend, locator,
tick parameters, scientific format, offset size and tick font sizes. -/
def dynamicLoop (rows : Nat) (marker_size : PyVal)
    (name_x name_y legend_loc : String)
    (font_size offset_text_size legend_size : Rat) (x_ticks_limit : Nat)
    (i : Nat) : List SeriesDesc → List Event
  | [] => []
  | d :: ds =>
    [Event.subplot rows 1 i,
     Event.plotCall Ax.gca d.data_x d.data_y d.label d.marker_type
       d.line_style d.colorr marker_size none,
     Event.xlabel Ax.gca name_x (some font_size),
     Event.ylabel Ax.gca name_y (none) (some font_size),
     Event.legend legend_loc legend_size,
     Event.xaxisMaxNLocator x_ticks_limit,
     Event.tickParams Ax.gca "both" offset_text_size false,
     Event.ticklabelFormat "sci",
     Event.offsetTextFontsize offset_text_size,
     Event.xticks font_size,
     Event.yticks font_size]
    ++ dynamicLoop rows marker_size name_x name_y legend_loc font_size
        offset_text_size legend_size x_ticks_limit (i + 1) ds

/-- Trace of `plot_dynamic_subplots` (source lines 374-413): one figure of
size `(8, len(list_of_data) * 4)`, the per-entry subplot loop starting at
index 1, `tight_layout`, optional `savefig` for a non-`"nosvg"` filename,
`show`.  The `marker_size` parameter defaults to the number 5 here, hence
the `PyVal` type. -/
def plot_dynamic_subplots (list_of_data : List SeriesDesc)
    (name_x name_y filename_to_save : String) (marker_size : PyVal)
    (font_size offset_text_size : Rat) (legend_loc : String)
    (legend_size : Rat) (x_ticks_limit : Nat) : List Event :=
  [Event.figure (some (8, (list_of_data.length * 4 : Nat)))]
  ++ dynamicLoop list_of_data.length marker_size name_x name_y legend_loc
      font_size offset_text_size legend_size x_ticks_limit 1 list_of_data
  ++ [Event.tightLayout]
  ++ (if filename_to_save = "nosvg" then []
      else [Event.savefig (filename_to_save ++ ".pdf")])
  ++ [Event.showFig]

/-- Extracts the filename of a save call, if the event is one. -/
def saveOf (e : Event) : Option String :=
  match e with
  | Event.savefig f => some f
  | _ => none

/-- Filenames passed to `savefig` by a trace, in order. -/
def savedFiles (t : List Event) : List String :=
  t.filterMap saveOf

/-- Arguments of one curve-drawing (`plot`) call: target axes, x-data,
y-data, label, color, line style, marker style. -/
structure CurveCall where
  ax : Ax
  x : List Rat
  y : List Rat
  label : String
  color : String
  linestyle : String
  marker : String
deriving DecidableEq, Repr

/-- Extracts the arguments of a curve-drawing call, if the event is one. -/
def curveOf (e : Event) : Option CurveCall :=
  match e with
  | Event.plotCall ax x y label marker linestyle color _ _ =>
      some ⟨ax, x, y, label, color, linestyle, marker⟩
  | _ => none

/-- Curve-drawing calls issued by a trace, in order. -/
def curveCalls (t : List Event) : List CurveCall :=
  t.filterMap curveOf

/-- Subplot-grid actions: selecting a cell of the grid, or drawing a curve
into the currently selected cell. -/
inductive GridCall where
  | sel (rows cols idx : Nat)
  | curve (x y : List Rat) (label color linestyle marker : String)
deriving DecidableEq, Repr

/-- Extracts a subplot selection or curve drawing, if the event is one. -/
def gridOf (e : Event) : Option GridCall :=
  match e with
  | Event.subplot r c i => some (GridCall.sel r c i)
  | Event.plotCall _ x y label marker linestyle color _ _ =>
      some (GridCall.curve x y label color linestyle marker)
  | _ => none

/-- Subplot selections and curve drawings of a trace, in order. -/
def gridCalls (t : List Event) : List GridCall :=
  t.filterMap gridOf

/-- True for the event that creates a fresh figure (`plt.figure` or
`plt.subplots`). -/
def isNewFigure (e : Event) : Bool :=
  match e with
  | Event.figure _ => true
  | Event.subplotsCall => true
  | _ => false

/-- Python tuple unpacking `data_x_1, data_y_1, data_y_1_error, label1, col1
= d` of `plot_with_one_axis_and_error_bars_BYLIST` (source line 171): it
succeeds exactly on entries of five elements and raises `ValueError`
(modelled as `none`) on any other arity. -/
def unpackErrBarEntry (d : List PyVal) :
    Option (PyVal × PyVal × PyVal × PyVal × PyVal) :=
  match d with
  | [a, b, c, l, col] => some (a, b, c, l, col)
  | _ => none

/-- Positional reads `d[0] .. d[5]` of
`one_axis__N_Y_with_error_bars__with_N_fits` (source line 339): they succeed
exactly when the entry has at least six elements and raise `IndexError`
(modelled as `none`) otherwise. -/
def readErrFitEntry (d : List PyVal) :
    Option (PyVal × PyVal × PyVal × PyVal × PyVal × PyVal) :=
  match d with
  | a :: b :: c :: l :: col :: ls :: _ => some (a, b, c, l, col, ls)
  | _ => none

/-- Exception raised by the underlying plotting library. -/
structure PyErr where
  msg : String
deriving DecidableEq, Repr

/-- Runs a trace against a fallible library: calls are issued in order and
the first library failure aborts the run with that very exception — the
module contains no `try`/`except`, so nothing intercepts it. -/
def runCalls (lib : Event → Except PyErr Unit) : List Event → Except PyErr Unit
  | [] => Except.ok ()
  | e :: es =>
    match lib e with
    | Except.error err => Except.error err
    | Except.ok _ => runCalls lib es

/-- Fallible run of `plot_with_one_axis`: its calls issued in order against
a library that may raise. -/
def plot_with_one_axis_exc (lib : Event → Except PyErr Unit)
    (list_of_data : List SeriesDesc)
    (name_x name_y plot_title filename_to_save marker_size : String)
    (font_size offset_text_size : Rat) (legend_local : String)
    (legend_size : Rat) (x_ticks_limit : Nat) (x_ticks_numstyle : String)
    (line_width : Rat) (y_lim : Option (Rat × Rat)) : Except PyErr Unit :=
  runCalls lib (plot_with_one_axis list_of_data name_x name_y plot_title
    filename_to_save marker_size font_size offset_text_size legend_local
    legend_size x_ticks_limit x_ticks_numstyle line_width y_lim)

/-- Fallible run of `plot_with_one_axis_with_vertical_lines`. -/
def plot_with_one_axis_with_vertical_lines_exc
    (lib : Event → Except PyErr Unit) (list_of_data : List SeriesDesc)
    (name_x name_y plot_title filename_to_save marker_size : String)
    (font_size offset_text_size : Rat) (legend_local : String)
    (legend_size : Rat) (x_ticks_limit : Nat)
    (vlines : Option (List VLineDesc)) (y_lim : Option (Rat × Rat)) :
    Except PyErr Unit :=
  runCalls lib (plot_with_one_axis_with_vertical_lines list_of_data name_x
    name_y plot_title filename_to_save marker_size font_size
    offset_text_size legend_local legend_size x_ticks_limit vlines y_lim)

/-- Fallible run of `plot_with_one_axis_and_error_bars_BYLIST`. -/
def plot_with_one_axis_and_error_bars_BYLIST_exc
    (lib : Event → Except PyErr Unit) (ALLDATA : List ErrBarDesc)
    (name_x name_y plot_title filename_to_save : String)
    (line_style marker_type marker_size : String)
    (capsize_errorbars transparency : Rat) : Except PyErr Unit :=
  runCalls lib (plot_with_one_axis_and_error_bars_BYLIST ALLDATA name_x
    name_y plot_title filename_to_save line_style marker_type marker_size
    capsize_errorbars transparency)

/-- Fallible run of `plot_with_one_axis_with_points`. -/
def plot_with_one_axis_with_points_exc (lib : Event → Except PyErr Unit)
    (list_of_data : List SeriesDesc5) (list_of_points : List PointDesc)
    (name_x name_y plot_title filename_to_save marker_type marker_size :
      String) : Except PyErr Unit :=
  runCalls lib (plot_with_one_axis_with_points list_of_data list_of_points
    name_x name_y plot_title filename_to_save marker_type marker_size)

/-- Fallible run of `plot_with_two_axes_with_N_curves_with_VERTICAL_lines`. -/
def plot_with_two_axes_with_N_curves_with_VERTICAL_lines_exc
    (lib : Event → Except PyErr Unit) (data_y_one data_y_two : List SeriesDesc)
    (name_x name_y1 name_y2 col_ax1 col_ax2 plot_title filename_to_save
      marker_size : String)
    (font_size legend_size : Rat) (legend_local : String)
    (vlines : Option (List VLineDesc)) (x_ticks : Bool) : Except PyErr Unit :=
  runCalls lib (plot_with_two_axes_with_N_curves_with_VERTICAL_lines
    data_y_one data_y_two name_x name_y1 name_y2 col_ax1 col_ax2 plot_title
    filename_to_save marker_size font_size legend_size legend_local vlines
    x_ticks)

/-- Fallible run of `one_axis__N_Y_with_error_bars__with_N_fits`. -/
def one_axis__N_Y_with_error_bars__with_N_fits_exc
    (lib : Event → Except PyErr Unit) (list_of_data : List ErrFitDataDesc)
    (list_of_fit : List FitDesc)
    (name_x name_y plot_title filename_to_save marker_type marker_size :
      String)
    (capsize_errorbars alpha_data font_size offset_text_size legend_size :
      Rat)
    (legend_local : String) (x_ticks_limit : Nat) : Except PyErr Unit :=
  runCalls lib (one_axis__N_Y_with_error_bars__with_N_fits list_of_data
    list_of_fit name_x name_y plot_title filename_to_save marker_type
    marker_size capsize_errorbars alpha_data font_size offset_text_size
    legend_size legend_local x_ticks_limit)

/-- Fallible run of `plot_dynamic_subplots`. -/
def plot_dynamic_subplots_exc (lib : Event → Except PyErr Unit)
    (list_of_data : List SeriesDesc)
    (name_x name_y filename_to_save : String) (marker_size : PyVal)
    (font_size offset_text_size : Rat) (legend_loc : String)
    (legend_size : Rat) (x_ticks_limit : Nat) : Except PyErr Unit :=
  runCalls lib (plot_dynamic_subplots list_of_data name_x name_y
    filename_to_save marker_size font_size offset_text_size legend_loc
    legend_size x_ticks_limit)

/-- Concrete call of `plot_with_one_axis_with_vertical_lines` with a saved
file and one requested vertical line: one data series, output name `"out"`,
one vertical line at `x = 1`. -/
def vlineSaveTrace : List Event :=
  plot_with_one_axis_with_vertical_lines
    [⟨[0, 1], [0, 1], "series", "#ffb400", "-", "o"⟩]
    "x" "y" "title" "out" "5" 16 16 "best" 16 5
    (some [⟨1, "red", "--"⟩]) none

/-- Entry of the shape the spec's error-series descriptor prescribes: the
six series-descriptor fields followed by a y-error array — seven fields. -/
def sevenFieldErrEntry : List PyVal :=
  [PyVal.arr [0, 1], PyVal.arr [2, 3], PyVal.str "series",
   PyVal.str "#ffb400", PyVal.str "-", PyVal.str "o", PyVal.arr [1, 1]]

/-- A trace leaves the module state untouched: folding `stepEvent` over any
event list is the identity on the state. -/
theorem foldl_stepEvent (st : ModuleState) (t : List Event) :
    t.foldl stepEvent st = st := by
  induction t generalizing st with
  | nil => rfl
  | cons e es ih => simpa [stepEvent] using ih st

/-- An error produced by running a trace is an error the library raised on
one of the trace's own calls, unmodified. -/
theorem runCalls_error (lib : Event → Except PyErr Unit) (t : List Event)
    (err : PyErr) (h : runCalls lib t = Except.error err) :
    ∃ e, e ∈ t ∧ lib e = Except.error err := by
  induction t with
  | nil => simp [runCalls] at h
  | cons e es ih =>
    cases hle : lib e with
    | error err2 =>
      rw [runCalls, hle] at h
      exact ⟨e, by simp, by rw [hle]; exact h⟩
    | ok u =>
      rw [runCalls, hle] at h
      obtain ⟨e2, hmem, hlib⟩ := ih h
      exact ⟨e2, by simp [hmem], hlib⟩

/-- Mapping then filtering with an extractor that rejects every image
yields the empty list. -/
theorem filterMap_map_none {α β γ : Type _} (g : α → β) (f : β → Option γ)
    (h : ∀ x, f (g x) = none) (l : List α) : (l.map g).filterMap f = [] := by
  induction l with
  | nil => rfl
  | cons a t ih => simp [List.filterMap_cons, h, ih]

/-- Mapping then filtering with an extractor that accepts every image
yields the pointwise extraction. -/
theorem filterMap_map_some {α β γ : Type _} (g : α → β) (f : β → Option γ)
    (k : α → γ) (h : ∀ x, f (g x) = some (k x)) (l : List α) :
    (l.map g).filterMap f = l.map k := by
  induction l with
  | nil => rfl
  | cons a t ih => simp [List.filterMap_cons, h, ih]

/-- Save calls issued by `plot_with_one_axis`: exactly one, named
`filename_to_save + ".pdf"`, when the filename differs from the `"nosvg"`
sentinel; none otherwise. -/
theorem savedFiles_plot_with_one_axis (ld : List SeriesDesc)
    (nx ny pt fn ms : String) (fs ots : Rat) (ll : String) (lsz : Rat)
    (xtl : Nat) (xts : String) (lw : Rat) (yl : Option (Rat × Rat)) :
    savedFiles (plot_with_one_axis ld nx ny pt fn ms fs ots ll lsz xtl xts
      lw yl) = if fn = "nosvg" then [] else [fn ++ ".pdf"] := by
  have hmap := filterMap_map_none (fun l : SeriesDesc =>
      Event.plotCall Ax.gca l.data_x l.data_y l.label l.marker_type
        l.line_style l.colorr (PyVal.str ms) (some lw))
    saveOf (fun _ => rfl) ld
  cases yl <;> by_cases h : fn = "nosvg" <;>
    simp [plot_with_one_axis, savedFiles, List.filterMap_append,
      List.filterMap_cons, saveOf, hmap, h]

/-- Save calls issued by `plot_with_one_axis_with_vertical_lines`. -/
theorem savedFiles_vertical_lines (ld : List SeriesDesc)
    (nx ny pt fn ms : String) (fs ots : Rat) (ll : String) (lsz : Rat)
    (xtl : Nat) (vl : Option (List VLineDesc)) (yl : Option (Rat × Rat)) :
    savedFiles (plot_with_one_axis_with_vertical_lines ld nx ny pt fn ms fs
      ots ll lsz xtl vl yl) = if fn = "nosvg" then [] else [fn ++ ".pdf"] := by
  have hmap := filterMap_map_none (fun l : SeriesDesc =>
      Event.plotCall Ax.gca l.data_x l.data_y l.label l.marker_type
        l.line_style l.colorr (PyVal.str ms) none)
    saveOf (fun _ => rfl) ld
  have hvl := filterMap_map_none (fun v : VLineDesc =>
      Event.axvline Ax.gca v.x_val v.color v.linestyle)
    saveOf (fun _ => rfl) (vl.getD [])
  cases yl <;> by_cases h : fn = "nosvg" <;>
    simp [plot_with_one_axis_with_vertical_lines, savedFiles,
      List.filterMap_append, List.filterMap_cons, saveOf, hmap, hvl, h]

/-- Save calls issued by `plot_with_one_axis_and_error_bars_BYLIST`. -/
theorem savedFiles_BYLIST (ad : List ErrBarDesc) (nx ny pt fn : String)
    (ls mt ms : String) (cs tr : Rat) :
    savedFiles (plot_with_one_axis_and_error_bars_BYLIST ad nx ny pt fn ls
      mt ms cs tr) = if fn = "nosvg" then [] else [fn ++ ".pdf"] := by
  have hmap := filterMap_map_none (fun d : ErrBarDesc =>
      Event.errorbar d.data_x_1 d.data_y_1 d.data_y_1_error mt d.label1 cs
        d.col1 (PyVal.str ms) "-" tr)
    saveOf (fun _ => rfl) ad
  by_cases h : fn = "nosvg" <;>
    simp [plot_with_one_axis_and_error_bars_BYLIST, savedFiles,
      List.filterMap_append, List.filterMap_cons, saveOf, hmap, h]

/-- Save calls issued by `plot_with_one_axis_with_points`. -/
theorem savedFiles_points (ld : List SeriesDesc5) (lp : List PointDesc)
    (nx ny pt fn mt ms : String) :
    savedFiles (plot_with_one_axis_with_points ld lp nx ny pt fn mt ms)
      = if fn = "nopdf" then [] else [fn ++ ".pdf"] := by
  have hmap := filterMap_map_none (fun l : SeriesDesc5 =>
      Event.plotCall Ax.gca l.data_x l.data_y l.label mt l.line_style
        l.colorr (PyVal.str ms) none)
    saveOf (fun _ => rfl) ld
  have hpts := filterMap_map_none (fun p : PointDesc =>
      Event.plotPoint p.x_val p.y_val p.labell p.markerr p.markersizee
        p.colorr)
    saveOf (fun _ => rfl) lp
  by_cases h : fn = "nopdf" <;>
    simp [plot_with_one_axis_with_points, savedFiles,
      List.filterMap_append, List.filterMap_cons, saveOf, hmap, hpts, h]

/-- Save calls issued by
`plot_with_two_axes_with_N_curves_with_VERTICAL_lines`. -/
theorem savedFiles_two_axes (d1 d2 : List SeriesDesc)
    (nx ny1 ny2 c1 c2 pt fn ms : String) (fs lsz : Rat) (ll : String)
    (vl : Option (List VLineDesc)) (xt : Bool) :
    savedFiles (plot_with_two_axes_with_N_curves_with_VERTICAL_lines d1 d2
      nx ny1 ny2 c1 c2 pt fn ms fs lsz ll vl xt)
      = if fn = "nopdf" then [] else [fn ++ ".pdf"] := by
  have hm1 := filterMap_map_none (fun d : SeriesDesc =>
      Event.plotCall Ax.ax1 d.data_x d.data_y d.label d.marker_type
        d.line_style d.colorr (PyVal.str ms) none)
    saveOf (fun _ => rfl) d1
  have hm2 := filterMap_map_none (fun d : SeriesDesc =>
      Event.plotCall Ax.ax2 d.data_x d.data_y d.label d.marker_type
        d.line_style d.colorr (PyVal.str ms) none)
    saveOf (fun _ => rfl) d2
  have hvl := filterMap_map_none (fun v : VLineDesc =>
      Event.axvline Ax.ax1 v.x_val v.color v.linestyle)
    saveOf (fun _ => rfl) (vl.getD [])
  cases xt <;> by_cases h : fn = "nopdf" <;>
    simp [plot_with_two_axes_with_N_curves_with_VERTICAL_lines, savedFiles,
      List.filterMap_append, List.filterMap_cons, saveOf, hm1, hm2, hvl, h]

/-- Save calls issued by `one_axis__N_Y_with_error_bars__with_N_fits`. -/
theorem savedFiles_N_fits (ld : List ErrFitDataDesc) (lf : List FitDesc)
    (nx ny pt fn mt ms : String) (cs al fs ots lsz : Rat) (ll : String)
    (xtl : Nat) :
    savedFiles (one_axis__N_Y_with_error_bars__with_N_fits ld lf nx ny pt
      fn mt ms cs al fs ots lsz ll xtl)
      = if fn = "nopdf" then [] else [fn ++ ".pdf"] := by
  have hmap := filterMap_map_none (fun d : ErrFitDataDesc =>
      Event.errorbar d.d0 d.d1 d.d2 mt d.d3 cs d.d4 (PyVal.str ms) d.d5 al)
    saveOf (fun _ => rfl) ld
  have hfit := filterMap_map_none
    (fun f : FitDesc => Event.plotFit f.f0 f.f1 f.f2 f.f3)
    saveOf (fun _ => rfl) lf
  by_cases h : fn = "nopdf" <;>
    simp [one_axis__N_Y_with_error_bars__with_N_fits, savedFiles,
      List.filterMap_append, List.filterMap_cons, saveOf, hmap, hfit, h]

/-- The subplot loop issues no save call. -/
theorem savedFiles_dynamicLoop (rows : Nat) (ms : PyVal)
    (nx ny ll : String) (fs ots lsz : Rat) (xtl : Nat) (i : Nat)
    (ds : List SeriesDesc) :
    savedFiles (dynamicLoop rows ms nx ny ll fs ots lsz xtl i ds) = [] := by
  induction ds generalizing i with
  | nil => rfl
  | cons d t ih =>
    simpa [dynamicLoop, savedFiles, List.filterMap_append,
      List.filterMap_cons, saveOf] using ih (i + 1)

/-- Save calls issued by `plot_dynamic_subplots`. -/
theorem savedFiles_dynamic (ld : List SeriesDesc) (nx ny fn : String)
    (ms : PyVal) (fs ots : Rat) (ll : String) (lsz : Rat) (xtl : Nat) :
    savedFiles (plot_dynamic_subplots ld nx ny fn ms fs ots ll lsz xtl)
      = if fn = "nosvg" then [] else [fn ++ ".pdf"] := by
  have hl := savedFiles_dynamicLoop ld.length ms nx ny ll fs ots lsz xtl 1 ld
  by_cases h : fn = "nosvg" <;>
    simp [plot_dynamic_subplots, savedFiles, List.filterMap_append,
      List.filterMap_cons, saveOf, h] <;>
    simpa [savedFiles] using hl

/-- Curve-drawing calls issued by `plot_with_one_axis`: one per descriptor,
in list order, with that descriptor's own fields. -/
theorem curveCalls_plot_with_one_axis (ld : List SeriesDesc)
    (nx ny pt fn ms : String) (fs ots : Rat) (ll : String) (lsz : Rat)
    (xtl : Nat) (xts : String) (lw : Rat) (yl : Option (Rat × Rat)) :
    curveCalls (plot_with_one_axis ld nx ny pt fn ms fs ots ll lsz xtl xts
      lw yl)
      = ld.map (fun l => ⟨Ax.gca, l.data_x, l.data_y, l.label, l.colorr,
          l.line_style, l.marker_type⟩) := by
  have hmap := filterMap_map_some (fun l : SeriesDesc =>
      Event.plotCall Ax.gca l.data_x l.data_y l.label l.marker_type
        l.line_style l.colorr (PyVal.str ms) (some lw))
    curveOf
    (fun l => ⟨Ax.gca, l.data_x, l.data_y, l.label, l.colorr, l.line_style,
      l.marker_type⟩)
    (fun _ => rfl) ld
  cases yl <;> by_cases h : fn = "nosvg" <;>
    simp [plot_with_one_axis, curveCalls, List.filterMap_append,
      List.filterMap_cons, curveOf, hmap, h]

/-- Curve-drawing calls issued by `plot_with_one_axis_with_vertical_lines`:
one per descriptor, in list order, with that descriptor's own fields. -/
theorem curveCalls_vertical_lines (ld : List SeriesDesc)
    (nx ny pt fn ms : String) (fs ots : Rat) (ll : String) (lsz : Rat)
    (xtl : Nat) (vl : Option (List VLineDesc)) (yl : Option (Rat × Rat)) :
    curveCalls (plot_with_one_axis_with_vertical_lines ld nx ny pt fn ms fs
      ots ll lsz xtl vl yl)
      = ld.map (fun l => ⟨Ax.gca, l.data_x, l.data_y, l.label, l.colorr,
          l.line_style, l.marker_type⟩) := by
  have hmap := filterMap_map_some (fun l : SeriesDesc =>
      Event.plotCall Ax.gca l.data_x l.data_y l.label l.marker_type
        l.line_style l.colorr (PyVal.str ms) none)
    curveOf
    (fun l => ⟨Ax.gca, l.data_x, l.data_y, l.label, l.colorr, l.line_style,
      l.marker_type⟩)
    (fun _ => rfl) ld
  have hvl := filterMap_map_none (fun v : VLineDesc =>
      Event.axvline Ax.gca v.x_val v.color v.linestyle)
    curveOf (fun _ => rfl) (vl.getD [])
  cases yl <;> by_cases h : fn = "nosvg" <;>
    simp [plot_with_one_axis_with_vertical_lines, curveCalls,
      List.filterMap_append, List.filterMap_cons, curveOf, hmap, hvl, h]

/-- Curve-drawing calls issued by
`plot_with_two_axes_with_N_curves_with_VERTICAL_lines`: the first-axis
curves in order, then the second-axis curves in order, each with its own
descriptor's fields (fifth field as line style, sixth as marker). -/
theorem curveCalls_two_axes (d1 d2 : List SeriesDesc)
    (nx ny1 ny2 c1 c2 pt fn ms : String) (fs lsz : Rat) (ll : String)
    (vl : Option (List VLineDesc)) (xt : Bool) :
    curveCalls (plot_with_two_axes_with_N_curves_with_VERTICAL_lines d1 d2
      nx ny1 ny2 c1 c2 pt fn ms fs lsz ll vl xt)
      = d1.map (fun d => ⟨Ax.ax1, d.data_x, d.data_y, d.label, d.colorr,
          d.line_style, d.marker_type⟩)
        ++ d2.map (fun d => ⟨Ax.ax2, d.data_x, d.data_y, d.label, d.colorr,
          d.line_style, d.marker_type⟩) := by
  have hm1 := filterMap_map_some (fun d : SeriesDesc =>
      Event.plotCall Ax.ax1 d.data_x d.data_y d.label d.marker_type
        d.line_style d.colorr (PyVal.str ms) none)
    curveOf
    (fun d => ⟨Ax.ax1, d.data_x, d.data_y, d.label, d.colorr, d.line_style,
      d.marker_type⟩)
    (fun _ => rfl) d1
  have hm2 := filterMap_map_some (fun d : SeriesDesc =>
      Event.plotCall Ax.ax2 d.data_x d.data_y d.label d.marker_type
        d.line_style d.colorr (PyVal.str ms) none)
    curveOf
    (fun d => ⟨Ax.ax2, d.data_x, d.data_y, d.label, d.colorr, d.line_style,
      d.marker_type⟩)
    (fun _ => rfl) d2
  have hvl := filterMap_map_none (fun v : VLineDesc =>
      Event.axvline Ax.ax1 v.x_val v.color v.linestyle)
    curveOf (fun _ => rfl) (vl.getD [])
  cases xt <;> by_cases h : fn = "nopdf" <;>
    simp [plot_with_two_axes_with_N_curves_with_VERTICAL_lines, curveCalls,
      List.filterMap_append, List.filterMap_cons, curveOf, hm1, hm2, hvl, h]

/-- Curve-drawing calls issued by the subplot loop: one per descriptor, in
order, with that descriptor's own fields. -/
theorem curveCalls_dynamicLoop (rows : Nat) (ms : PyVal)
    (nx ny ll : String) (fs ots lsz : Rat) (xtl : Nat) (i : Nat)
    (ds : List SeriesDesc) :
    curveCalls (dynamicLoop rows ms nx ny ll fs ots lsz xtl i ds)
      = ds.map (fun d => ⟨Ax.gca, d.data_x, d.data_y, d.label, d.colorr,
          d.line_style, d.marker_type⟩) := by
  induction ds generalizing i with
  | nil => rfl
  | cons d t ih =>
    simpa [dynamicLoop, curveCalls, List.filterMap_append,
      List.filterMap_cons, curveOf] using ih (i + 1)

/-- Curve-drawing calls issued by `plot_dynamic_subplots`: one per
descriptor, in order, with that descriptor's own fields. -/
theorem curveCalls_dynamic (ld : List SeriesDesc) (nx ny fn : String)
    (ms : PyVal) (fs ots : Rat) (ll : String) (lsz : Rat) (xtl : Nat) :
    curveCalls (plot_dynamic_subplots ld nx ny fn ms fs ots ll lsz xtl)
      = ld.map (fun d => ⟨Ax.gca, d.data_x, d.data_y, d.label, d.colorr,
          d.line_style, d.marker_type⟩) := by
  have hl := curveCalls_dynamicLoop ld.length ms nx ny ll fs ots lsz xtl 1 ld
  by_cases h : fn = "nosvg" <;>
    simp [plot_dynamic_subplots, curveCalls, List.filterMap_append,
      List.filterMap_cons, curveOf, h] <;>
    simpa [curveCalls] using hl

/-- Grid actions of the subplot loop started at index `i`: for each
descriptor, select cell `(rows, 1, index)` then draw exactly that
descriptor's curve. -/
theorem gridCalls_dynamicLoop (rows : Nat) (ms : PyVal)
    (nx ny ll : String) (fs ots lsz : Rat) (xtl : Nat) (i : Nat)
    (ds : List SeriesDesc) :
    gridCalls (dynamicLoop rows ms nx ny ll fs ots lsz xtl i ds)
      = (List.enumFrom i ds).flatMap (fun p =>
          [GridCall.sel rows 1 p.1,
           GridCall.curve p.2.data_x p.2.data_y p.2.label p.2.colorr
             p.2.line_style p.2.marker_type]) := by
  induction ds generalizing i with
  | nil => rfl
  | cons d t ih =>
    simpa [dynamicLoop, gridCalls, List.filterMap_append,
      List.filterMap_cons, gridOf, List.enumFrom, List.flatMap_cons]
      using ih (i + 1)

/-- The subplot loop creates no figure. -/
theorem countFigure_dynamicLoop (rows : Nat) (ms : PyVal)
    (nx ny ll : String) (fs ots lsz : Rat) (xtl : Nat) (i : Nat)
    (ds : List SeriesDesc) :
    (dynamicLoop rows ms nx ny ll fs ots lsz xtl i ds).countP isNewFigure
      = 0 := by
  induction ds generalizing i with
  | nil => rfl
  | cons d t ih =>
    simpa [dynamicLoop, List.countP_append, List.countP_cons, isNewFigure]
      using ih (i + 1)

/-- C8: the three palette functions `c_scheme`, `c_scheme_02` and
`c_scheme_03` are constants — each returns the same fixed ordered list on
every call, independent of any prior calls (modelled as independence from
the module state), and every element of each list is a hex color string. -/
theorem palettes_constant_hex :
    (∀ st st' : ModuleState,
      c_scheme st = c_scheme st' ∧ c_scheme_02 st = c_scheme_02 st'
        ∧ c_scheme_03 st = c_scheme_03 st')
    ∧ (∀ st : ModuleState,
      (c_scheme st).all isHexColor = true
        ∧ (c_scheme_02 st).all isHexColor = true
        ∧ (c_scheme_03 st).all isHexColor = true) :=
  ⟨fun _ _ => ⟨rfl, rfl, rfl⟩,
   fun _ => ⟨by simp only [c_scheme]; decide,
     by simp only [c_scheme_02]; decide,
     by simp only [c_scheme_03]; decide⟩⟩

/-- C10: the `line_style` parameter of
`plot_with_one_axis_and_error_bars_BYLIST` has no effect — two calls whose
arguments differ only in `line_style` issue identical traces (the
connecting-line style of every `errorbar` call is the hard-coded `"-"`),
hence identical rendered charts and identical saved files. -/
theorem bylist_line_style_has_no_effect :
    ∀ (ALLDATA : List ErrBarDesc) (nx ny pt fn mt ms : String)
      (cs tr : Rat) (ls1 ls2 : String),
      plot_with_one_axis_and_error_bars_BYLIST ALLDATA nx ny pt fn ls1 mt
        ms cs tr
        = plot_with_one_axis_and_error_bars_BYLIST ALLDATA nx ny pt fn ls2
          mt ms cs tr :=
  fun _ _ _ _ _ _ _ _ _ _ _ => rfl

/-- C1: refuted at a concrete input — in
`plot_with_one_axis_with_vertical_lines`, the `savefig` call is issued
before the requested vertical line's `axvline` call, so the saved document
does not contain the requested vertical reference line. -/
theorem vlines_drawn_after_savefig_bug :
    Event.savefig "out.pdf" ∈ vlineSaveTrace
      ∧ Event.axvline Ax.gca 1 "red" "--" ∈ vlineSaveTrace
      ∧ vlineSaveTrace.indexOf (Event.savefig "out.pdf")
          < vlineSaveTrace.indexOf (Event.axvline Ax.gca 1 "red" "--") := by
  decide

/-- C5 counterexample: an entry of the claimed shape — the six
series-descriptor fields plus a y-error sequence, seven fields — makes the
per-entry unpacking of `plot_with_one_axis_and_error_bars_BYLIST` fail,
because that unpacking requires exactly five elements. -/
theorem seven_field_entry_fails_bylist_unpack :
    sevenFieldErrEntry.length = 7
      ∧ unpackErrBarEntry sevenFieldErrEntry = none := by
  decide

/-- C5 amended: entries of `plot_with_one_axis_and_error_bars_BYLIST` are
five-field — (x-values, y-values, y-errors, label, color) — and its
unpacking succeeds exactly on five-element entries; the data entries of
`one_axis__N_Y_with_error_bars__with_N_fits` are read positionally at
indices 0..5 as (x-values, y-values, y-errors, label, color, line-style),
succeeding exactly when the entry has at least six elements.  In both
functions the marker style comes from the `marker_type` parameter, not from
the entry. -/
theorem errorbar_entry_shapes :
    (∀ a b c l col : PyVal,
      unpackErrBarEntry [a, b, c, l, col] = some (a, b, c, l, col))
    ∧ (∀ d : List PyVal, d.length ≠ 5 → unpackErrBarEntry d = none)
    ∧ (∀ a b c l col ls : PyVal, ∀ rest : List PyVal,
      readErrFitEntry (a :: b :: c :: l :: col :: ls :: rest)
        = some (a, b, c, l, col, ls))
    ∧ (∀ d : List PyVal, d.length < 6 → readErrFitEntry d = none) := by
  refine ⟨fun a b c l col => rfl, ?_, fun a b c l col ls rest => rfl, ?_⟩
  · intro d h
    rcases d with _ | ⟨a, _ | ⟨b, _ | ⟨c, _ | ⟨e, _ | ⟨f, _ | ⟨g, t⟩⟩⟩⟩⟩⟩
    · rfl
    · rfl
    · rfl
    · rfl
    · rfl
    · exact absurd rfl h
    · rfl
  · intro d h
    rcases d with _ | ⟨a, _ | ⟨b, _ | ⟨c, _ | ⟨e, _ | ⟨f, _ | ⟨g, t⟩⟩⟩⟩⟩⟩
    · rfl
    · rfl
    · rfl
    · rfl
    · rfl
    · rfl
    · simp at h
      omega

/-- C5 witness: the amended shape facts evaluated at concrete entries. -/
theorem errorbar_entry_shapes_witness :
    unpackErrBarEntry [PyVal.num 1, PyVal.num 2, PyVal.num 3,
        PyVal.str "l", PyVal.str "c"]
      = some (PyVal.num 1, PyVal.num 2, PyVal.num 3, PyVal.str "l",
        PyVal.str "c")
    ∧ unpackErrBarEntry [PyVal.num 1, PyVal.num 2] = none
    ∧ readErrFitEntry [PyVal.num 1, PyVal.num 2, PyVal.num 3,
        PyVal.str "l", PyVal.str "c", PyVal.str "-"]
      = some (PyVal.num 1, PyVal.num 2, PyVal.num 3, PyVal.str "l",
        PyVal.str "c", PyVal.str "-")
    ∧ readErrFitEntry [PyVal.num 1] = none :=
  ⟨errorbar_entry_shapes.1 _ _ _ _ _,
   errorbar_entry_shapes.2.1 [PyVal.num 1, PyVal.num 2] (by decide),
   errorbar_entry_shapes.2.2.1 _ _ _ _ _ _ [],
   errorbar_entry_shapes.2.2.2 [PyVal.num 1] (by decide)⟩

/-- C2: for every plotting function, a save call is issued exactly when the
filename argument differs from that function's sentinel (`"nosvg"` or
`"nopdf"`), and the saved name is the caller-supplied string with `".pdf"`
appended — a relative path, hence resolved against the current working
directory. -/
theorem savefig_iff_non_sentinel_filename :
    (∀ (ld : List SeriesDesc) (nx ny pt fn ms : String) (fs ots : Rat)
      (ll : String) (lsz : Rat) (xtl : Nat) (xts : String) (lw : Rat)
      (yl : Option (Rat × Rat)),
      savedFiles (plot_with_one_axis ld nx ny pt fn ms fs ots ll lsz xtl
        xts lw yl) = if fn = "nosvg" then [] else [fn ++ ".pdf"])
    ∧ (∀ (ld : List SeriesDesc) (nx ny pt fn ms : String) (fs ots : Rat)
      (ll : String) (lsz : Rat) (xtl : Nat) (vl : Option (List VLineDesc))
      (yl : Option (Rat × Rat)),
      savedFiles (plot_with_one_axis_with_vertical_lines ld nx ny pt fn ms
        fs ots ll lsz xtl vl yl)
        = if fn = "nosvg" then [] else [fn ++ ".pdf"])
    ∧ (∀ (ad : List ErrBarDesc) (nx ny pt fn : String)
      (ls mt ms : String) (cs tr : Rat),
      savedFiles (plot_with_one_axis_and_error_bars_BYLIST ad nx ny pt fn
        ls mt ms cs tr) = if fn = "nosvg" then [] else [fn ++ ".pdf"])
    ∧ (∀ (ld : List SeriesDesc5) (lp : List PointDesc)
      (nx ny pt fn mt ms : String),
      savedFiles (plot_with_one_axis_with_points ld lp nx ny pt fn mt ms)
        = if fn = "nopdf" then [] else [fn ++ ".pdf"])
    ∧ (∀ (d1 d2 : List SeriesDesc) (nx ny1 ny2 c1 c2 pt fn ms : String)
      (fs lsz : Rat) (ll : String) (vl : Option (List VLineDesc))
      (xt : Bool),
      savedFiles (plot_with_two_axes_with_N_curves_with_VERTICAL_lines d1
        d2 nx ny1 ny2 c1 c2 pt fn ms fs lsz ll vl xt)
        = if fn = "nopdf" then [] else [fn ++ ".pdf"])
    ∧ (∀ (ld : List ErrFitDataDesc) (lf : List FitDesc)
      (nx ny pt fn mt ms : String) (cs al fs ots lsz : Rat) (ll : String)
      (xtl : Nat),
      savedFiles (one_axis__N_Y_with_error_bars__with_N_fits ld lf nx ny
        pt fn mt ms cs al fs ots lsz ll xtl)
        = if fn = "nopdf" then [] else [fn ++ ".pdf"])
    ∧ (∀ (ld : List SeriesDesc) (nx ny fn : String) (ms : PyVal)
      (fs ots : Rat) (ll : String) (lsz : Rat) (xtl : Nat),
      savedFiles (plot_dynamic_subplots ld nx ny fn ms fs ots ll lsz xtl)
        = if fn = "nosvg" then [] else [fn ++ ".pdf"]) :=
  ⟨savedFiles_plot_with_one_axis, savedFiles_vertical_lines,
   savedFiles_BYLIST, savedFiles_points, savedFiles_two_axes,
   savedFiles_N_fits, savedFiles_dynamic⟩

/-- C3: each function consuming six-field series descriptors issues exactly
one curve-drawing call per descriptor, in list order, with that
descriptor's own x-values, y-values, label, color, line style (fifth field)
and marker style (sixth field). -/
theorem one_plot_call_per_series_descriptor :
    (∀ (ld : List SeriesDesc) (nx ny pt fn ms : String) (fs ots : Rat)
      (ll : String) (lsz : Rat) (xtl : Nat) (xts : String) (lw : Rat)
      (yl : Option (Rat × Rat)),
      curveCalls (plot_with_one_axis ld nx ny pt fn ms fs ots ll lsz xtl
        xts lw yl)
        = ld.map (fun l => ⟨Ax.gca, l.data_x, l.data_y, l.label, l.colorr,
            l.line_style, l.marker_type⟩))
    ∧ (∀ (ld : List SeriesDesc) (nx ny pt fn ms : String) (fs ots : Rat)
      (ll : String) (lsz : Rat) (xtl : Nat) (vl : Option (List VLineDesc))
      (yl : Option (Rat × Rat)),
      curveCalls (plot_with_one_axis_with_vertical_lines ld nx ny pt fn ms
        fs ots ll lsz xtl vl yl)
        = ld.map (fun l => ⟨Ax.gca, l.data_x, l.data_y, l.label, l.colorr,
            l.line_style, l.marker_type⟩))
    ∧ (∀ (d1 d2 : List SeriesDesc) (nx ny1 ny2 c1 c2 pt fn ms : String)
      (fs lsz : Rat) (ll : String) (vl : Option (List VLineDesc))
      (xt : Bool),
      curveCalls (plot_with_two_axes_with_N_curves_with_VERTICAL_lines d1
        d2 nx ny1 ny2 c1 c2 pt fn ms fs lsz ll vl xt)
        = d1.map (fun d => ⟨Ax.ax1, d.data_x, d.data_y, d.label, d.colorr,
            d.line_style, d.marker_type⟩)
          ++ d2.map (fun d => ⟨Ax.ax2, d.data_x, d.data_y, d.label,
            d.colorr, d.line_style, d.marker_type⟩))
    ∧ (∀ (ld : List SeriesDesc) (nx ny fn : String) (ms : PyVal)
      (fs ots : Rat) (ll : String) (lsz : Rat) (xtl : Nat),
      curveCalls (plot_dynamic_subplots ld nx ny fn ms fs ots ll lsz xtl)
        = ld.map (fun d => ⟨Ax.gca, d.data_x, d.data_y, d.label, d.colorr,
            d.line_style, d.marker_type⟩)) :=
  ⟨curveCalls_plot_with_one_axis, curveCalls_vertical_lines,
   curveCalls_two_axes, curveCalls_dynamic⟩

/-- C4: no plotting function retains caller input in module state or
mutates it — every library call of every trace leaves the module state
exactly as received (the module has no mutable globals and stores no
reference to any argument), so after any call the module state, and with it
every caller-supplied descriptor and palette list, is unchanged. -/
theorem no_module_retention_of_inputs :
    (∀ (st : ModuleState) (ld : List SeriesDesc) (nx ny pt fn ms : String)
      (fs ots : Rat) (ll : String) (lsz : Rat) (xtl : Nat) (xts : String)
      (lw : Rat) (yl : Option (Rat × Rat)),
      (plot_with_one_axis ld nx ny pt fn ms fs ots ll lsz xtl xts lw
        yl).foldl stepEvent st = st)
    ∧ (∀ (st : ModuleState) (ld : List SeriesDesc)
      (nx ny pt fn ms : String) (fs ots : Rat) (ll : String) (lsz : Rat)
      (xtl : Nat) (vl : Option (List VLineDesc)) (yl : Option (Rat × Rat)),
      (plot_with_one_axis_with_vertical_lines ld nx ny pt fn ms fs ots ll
        lsz xtl vl yl).foldl stepEvent st = st)
    ∧ (∀ (st : ModuleState) (ad : List ErrBarDesc) (nx ny pt fn : String)
      (ls mt ms : String) (cs tr : Rat),
      (plot_with_one_axis_and_error_bars_BYLIST ad nx ny pt fn ls mt ms cs
        tr).foldl stepEvent st = st)
    ∧ (∀ (st : ModuleState) (ld : List SeriesDesc5) (lp : List PointDesc)
      (nx ny pt fn mt ms : String),
      (plot_with_one_axis_with_points ld lp nx ny pt fn mt ms).foldl
        stepEvent st = st)
    ∧ (∀ (st : ModuleState) (d1 d2 : List SeriesDesc)
      (nx ny1 ny2 c1 c2 pt fn ms : String) (fs lsz : Rat) (ll : String)
      (vl : Option (List VLineDesc)) (xt : Bool),
      (plot_with_two_axes_with_N_curves_with_VERTICAL_lines d1 d2 nx ny1
        ny2 c1 c2 pt fn ms fs lsz ll vl xt).foldl stepEvent st = st)
    ∧ (∀ (st : ModuleState) (ld : List ErrFitDataDesc) (lf : List FitDesc)
      (nx ny pt fn mt ms : String) (cs al fs ots lsz : Rat) (ll : String)
      (xtl : Nat),
      (one_axis__N_Y_with_error_bars__with_N_fits ld lf nx ny pt fn mt ms
        cs al fs ots lsz ll xtl).foldl stepEvent st = st)
    ∧ (∀ (st : ModuleState) (ld : List SeriesDesc) (nx ny fn : String)
      (ms : PyVal) (fs ots : Rat) (ll : String) (lsz : Rat) (xtl : Nat),
      (plot_dynamic_subplots ld nx ny fn ms fs ots ll lsz xtl).foldl
        stepEvent st = st) := by
  refine ⟨?_, ?_, ?_, ?_, ?_, ?_, ?_⟩ <;>
    · intros
      exact foldl_stepEvent _ _

/-- C6: no plotting function defines or intercepts any error condition —
whenever a run of any function fails, the resulting exception is one the
underlying library raised on one of that very call's own events,
propagated unmodified. -/
theorem library_failures_propagate_unmodified :
    (∀ (lib : Event → Except PyErr Unit) (ld : List SeriesDesc)
      (nx ny pt fn ms : String) (fs ots : Rat) (ll : String) (lsz : Rat)
      (xtl : Nat) (xts : String) (lw : Rat) (yl : Option (Rat × Rat))
      (err : PyErr),
      plot_with_one_axis_exc lib ld nx ny pt fn ms fs ots ll lsz xtl xts
        lw yl = Except.error err →
      ∃ e, e ∈ plot_with_one_axis ld nx ny pt fn ms fs ots ll lsz xtl xts
        lw yl ∧ lib e = Except.error err)
    ∧ (∀ (lib : Event → Except PyErr Unit) (ld : List SeriesDesc)
      (nx ny pt fn ms : String) (fs ots : Rat) (ll : String) (lsz : Rat)
      (xtl : Nat) (vl : Option (List VLineDesc)) (yl : Option (Rat × Rat))
      (err : PyErr),
      plot_with_one_axis_with_vertical_lines_exc lib ld nx ny pt fn ms fs
        ots ll lsz xtl vl yl = Except.error err →
      ∃ e, e ∈ plot_with_one_axis_with_vertical_lines ld nx ny pt fn ms fs
        ots ll lsz xtl vl yl ∧ lib e = Except.error err)
    ∧ (∀ (lib : Event → Except PyErr Unit) (ad : List ErrBarDesc)
      (nx ny pt fn : String) (ls mt ms : String) (cs tr : Rat)
      (err : PyErr),
      plot_with_one_axis_and_error_bars_BYLIST_exc lib ad nx ny pt fn ls
        mt ms cs tr = Except.error err →
      ∃ e, e ∈ plot_with_one_axis_and_error_bars_BYLIST ad nx ny pt fn ls
        mt ms cs tr ∧ lib e = Except.error err)
    ∧ (∀ (lib : Event → Except PyErr Unit) (ld : List SeriesDesc5)
      (lp : List PointDesc) (nx ny pt fn mt ms : String) (err : PyErr),
      plot_with_one_axis_with_points_exc lib ld lp nx ny pt fn mt ms
        = Except.error err →
      ∃ e, e ∈ plot_with_one_axis_with_points ld lp nx ny pt fn mt ms
        ∧ lib e = Except.error err)
    ∧ (∀ (lib : Event → Except PyErr Unit) (d1 d2 : List SeriesDesc)
      (nx ny1 ny2 c1 c2 pt fn ms : String) (fs lsz : Rat) (ll : String)
      (vl : Option (List VLineDesc)) (xt : Bool) (err : PyErr),
      plot_with_two_axes_with_N_curves_with_VERTICAL_lines_exc lib d1 d2
        nx ny1 ny2 c1 c2 pt fn ms fs lsz ll vl xt = Except.error err →
      ∃ e, e ∈ plot_with_two_axes_with_N_curves_with_VERTICAL_lines d1 d2
        nx ny1 ny2 c1 c2 pt fn ms fs lsz ll vl xt
        ∧ lib e = Except.error err)
    ∧ (∀ (lib : Event → Except PyErr Unit) (ld : List ErrFitDataDesc)
      (lf : List FitDesc) (nx ny pt fn mt ms : String)
      (cs al fs ots lsz : Rat) (ll : String) (xtl : Nat) (err : PyErr),
      one_axis__N_Y_with_error_bars__with_N_fits_exc lib ld lf nx ny pt fn
        mt ms cs al fs ots lsz ll xtl = Except.error err →
      ∃ e, e ∈ one_axis__N_Y_with_error_bars__with_N_fits ld lf nx ny pt
        fn mt ms cs al fs ots lsz ll xtl ∧ lib e = Except.error err)
    ∧ (∀ (lib : Event → Except PyErr Unit) (ld : List SeriesDesc)
      (nx ny fn : String) (ms : PyVal) (fs ots : Rat) (ll : String)
      (lsz : Rat) (xtl : Nat) (err : PyErr),
      plot_dynamic_subplots_exc lib ld nx ny fn ms fs ots ll lsz xtl
        = Except.error err →
      ∃ e, e ∈ plot_dynamic_subplots ld nx ny fn ms fs ots ll lsz xtl
        ∧ lib e = Except.error err) := by
  refine ⟨?_, ?_, ?_, ?_, ?_, ?_, ?_⟩ <;>
    · intros
      exact runCalls_error _ _ _ (by assumption)

/-- C6 witness: a library that raises on every call makes
`plot_with_one_axis` fail with that very error, raised on one of the
call's own events. -/
theorem library_failures_propagate_unmodified_witness :
    ∃ e, e ∈ plot_with_one_axis [] "x" "y" "" "nosvg" "5" 16 16 "best" 16
      5 "sci" 1 none
      ∧ (fun _ : Event =>
          (Except.error ⟨"ValueError"⟩ : Except PyErr Unit)) e
        = Except.error ⟨"ValueError"⟩ :=
  library_failures_propagate_unmodified.1
    (fun _ => Except.error ⟨"ValueError"⟩) [] "x" "y" "" "nosvg" "5" 16 16
    "best" 16 5 "sci" 1 none ⟨"ValueError"⟩ rfl

/-- C7: every plotting function is stateless and independent — each call's
very first library call creates a fresh figure (`plt.figure` or
`plt.subplots`), and two consecutive calls leave the module state exactly
as it started, so no call reads anything a previous call left behind.  The
traces contain only plotting-library calls: no function of the module
invokes another. -/
theorem each_call_creates_new_figure_stateless :
    (∀ (ld : List SeriesDesc) (nx ny pt fn ms : String) (fs ots : Rat)
      (ll : String) (lsz : Rat) (xtl : Nat) (xts : String) (lw : Rat)
      (yl : Option (Rat × Rat)),
      (plot_with_one_axis ld nx ny pt fn ms fs ots ll lsz xtl xts lw
        yl).head? = some (Event.figure none))
    ∧ (∀ (ld : List SeriesDesc) (nx ny pt fn ms : String) (fs ots : Rat)
      (ll : String) (lsz : Rat) (xtl : Nat) (vl : Option (List VLineDesc))
      (yl : Option (Rat × Rat)),
      (plot_with_one_axis_with_vertical_lines ld nx ny pt fn ms fs ots ll
        lsz xtl vl yl).head? = some (Event.figure none))
    ∧ (∀ (ad : List ErrBarDesc) (nx ny pt fn : String)
      (ls mt ms : String) (cs tr : Rat),
      (plot_with_one_axis_and_error_bars_BYLIST ad nx ny pt fn ls mt ms cs
        tr).head? = some (Event.figure none))
    ∧ (∀ (ld : List SeriesDesc5) (lp : List PointDesc)
      (nx ny pt fn mt ms : String),
      (plot_with_one_axis_with_points ld lp nx ny pt fn mt ms).head?
        = some (Event.figure none))
    ∧ (∀ (d1 d2 : List SeriesDesc) (nx ny1 ny2 c1 c2 pt fn ms : String)
      (fs lsz : Rat) (ll : String) (vl : Option (List VLineDesc))
      (xt : Bool),
      (plot_with_two_axes_with_N_curves_with_VERTICAL_lines d1 d2 nx ny1
        ny2 c1 c2 pt fn ms fs lsz ll vl xt).head?
        = some Event.subplotsCall)
    ∧ (∀ (ld : List ErrFitDataDesc) (lf : List FitDesc)
      (nx ny pt fn mt ms : String) (cs al fs ots lsz : Rat) (ll : String)
      (xtl : Nat),
      (one_axis__N_Y_with_error_bars__with_N_fits ld lf nx ny pt fn mt ms
        cs al fs ots lsz ll xtl).head? = some (Event.figure none))
    ∧ (∀ (ld : List SeriesDesc) (nx ny fn : String) (ms : PyVal)
      (fs ots : Rat) (ll : String) (lsz : Rat) (xtl : Nat),
      (plot_dynamic_subplots ld nx ny fn ms fs ots ll lsz xtl).head?
        = some (Event.figure (some (8, (ld.length * 4 : Nat)))))
    ∧ (∀ (st : ModuleState) (ld : List SeriesDesc)
      (nx ny pt fn ms : String) (fs ots : Rat) (ll : String) (lsz : Rat)
      (xtl : Nat) (xts : String) (lw : Rat) (yl : Option (Rat × Rat))
      (d1 d2 : List SeriesDesc) (nx2 ny1 ny2 c1 c2 pt2 fn2 ms2 : String)
      (fs2 lsz2 : Rat) (ll2 : String) (vl2 : Option (List VLineDesc))
      (xt2 : Bool),
      (plot_with_two_axes_with_N_curves_with_VERTICAL_lines d1 d2 nx2 ny1
        ny2 c1 c2 pt2 fn2 ms2 fs2 lsz2 ll2 vl2 xt2).foldl stepEvent
        ((plot_with_one_axis ld nx ny pt fn ms fs ots ll lsz xtl xts lw
          yl).foldl stepEvent st) = st) := by
  refine ⟨fun _ _ _ _ _ _ _ _ _ _ _ _ _ _ => rfl,
    fun _ _ _ _ _ _ _ _ _ _ _ _ _ => rfl,
    fun _ _ _ _ _ _ _ _ _ _ => rfl,
    fun _ _ _ _ _ _ _ _ => rfl,
    fun _ _ _ _ _ _ _ _ _ _ _ _ _ _ _ => rfl,
    fun _ _ _ _ _ _ _ _ _ _ _ _ _ _ _ => rfl,
    fun _ _ _ _ _ _ _ _ _ _ => rfl, ?_⟩
  intros
  rw [foldl_stepEvent, foldl_stepEvent]

/-- C9: for a non-empty descriptor list, `plot_dynamic_subplots` creates a
single figure whose height is four times the number of descriptors, and
its grid actions are, for each index `i` counted from 1, a selection of
cell `(n, 1, i)` of the n-row one-column grid followed by exactly the
curve of the i-th descriptor with that descriptor's own label, color, line
style and marker style. -/
theorem dynamic_subplots_rows_and_curves (ld : List SeriesDesc)
    (nx ny fn : String) (ms : PyVal) (fs ots : Rat) (ll : String)
    (lsz : Rat) (xtl : Nat) (hne : ld ≠ []) :
    (plot_dynamic_subplots ld nx ny fn ms fs ots ll lsz xtl).head?
        = some (Event.figure (some (8, (ld.length * 4 : Nat))))
    ∧ (plot_dynamic_subplots ld nx ny fn ms fs ots ll lsz
        xtl).countP isNewFigure = 1
    ∧ gridCalls (plot_dynamic_subplots ld nx ny fn ms fs ots ll lsz xtl)
        = (List.enumFrom 1 ld).flatMap (fun p =>
            [GridCall.sel ld.length 1 p.1,
             GridCall.curve p.2.data_x p.2.data_y p.2.label p.2.colorr
               p.2.line_style p.2.marker_type]) := by
  refine ⟨rfl, ?_, ?_⟩
  · by_cases h : fn = "nosvg" <;>
      simp [plot_dynamic_subplots, List.countP_append, List.countP_cons,
        isNewFigure, countFigure_dynamicLoop, h]
  · have hl := gridCalls_dynamicLoop ld.length ms nx ny ll fs ots lsz xtl
      1 ld
    by_cases h : fn = "nosvg" <;>
      simp [plot_dynamic_subplots, gridCalls, List.filterMap_append,
        List.filterMap_cons, gridOf, h] <;>
      simpa [gridCalls] using hl

/-- C9 witness: a two-descriptor call makes a two-row, one-column grid
holding each descriptor's curve in its own subplot. -/
theorem dynamic_subplots_rows_and_curves_witness :
    gridCalls (plot_dynamic_subplots
        [⟨[0], [1], "a", "#e6194b", "-", "o"⟩,
         ⟨[2], [3], "b", "#3cb44b", "--", "x"⟩]
        "x" "y" "nosvg" (PyVal.num 5) 16 16 "best" 16 5)
      = [GridCall.sel 2 1 1, GridCall.curve [0] [1] "a" "#e6194b" "-" "o",
         GridCall.sel 2 1 2,
         GridCall.curve [2] [3] "b" "#3cb44b" "--" "x"] := by
  have h := dynamic_subplots_rows_and_curves
    [⟨[0], [1], "a", "#e6194b", "-", "o"⟩,
     ⟨[2], [3], "b", "#3cb44b", "--", "x"⟩]
    "x" "y" "nosvg" (PyVal.num 5) 16 16 "best" 16 5 (by decide)
  exact h.2.2

end PlotFunctions
